import Mathlib

/-
Shallow embedding of the Travel-Agent repository's normalization/fallback
core: the weather tool (src/tools/weather_tool.py), the flight tool
(src/tools/flight_tool.py), the places/itinerary tool
(src/tools/places_tool.py) and the plan composer
(src/agents/travel_agent.py).

Python strings are modelled as List Char; Python floats appearing in this
code are exact decimals and are modelled as rationals; Python datetime.date
values are modelled by the PyDate structure together with the validity rules
that datetime.date.replace enforces.  Code that can raise is modelled with
Except; the message is the Python exception rendered as text.  Randomness
(random.randint / random.choice) is modelled by seed streams: a call site
receives an arbitrary natural seed and reduces it modulo the size of the
sampled range, so every possible draw corresponds to some seed and every
seed yields a legal draw.  External MCP calls are modelled by outcome values
(timeout / exception / payload) supplied by the environment.
-/

namespace TravelAgent

/- ───────────────────────── Python string primitives ───────────────────────── -/

/-- ASCII lower-casing of one character, modelling Python str.lower on the
ASCII range this repository works with. -/
def pyLowerChar : Char → Char
  | 'A' => 'a' | 'B' => 'b' | 'C' => 'c' | 'D' => 'd' | 'E' => 'e'
  | 'F' => 'f' | 'G' => 'g' | 'H' => 'h' | 'I' => 'i' | 'J' => 'j'
  | 'K' => 'k' | 'L' => 'l' | 'M' => 'm' | 'N' => 'n' | 'O' => 'o'
  | 'P' => 'p' | 'Q' => 'q' | 'R' => 'r' | 'S' => 's' | 'T' => 't'
  | 'U' => 'u' | 'V' => 'v' | 'W' => 'w' | 'X' => 'x' | 'Y' => 'y'
  | 'Z' => 'z' | c => c

/-- ASCII upper-casing of one character, modelling Python str.upper on the
ASCII range this repository works with. -/
def pyUpperChar : Char → Char
  | 'a' => 'A' | 'b' => 'B' | 'c' => 'C' | 'd' => 'D' | 'e' => 'E'
  | 'f' => 'F' | 'g' => 'G' | 'h' => 'H' | 'i' => 'I' | 'j' => 'J'
  | 'k' => 'K' | 'l' => 'L' | 'm' => 'M' | 'n' => 'N' | 'o' => 'O'
  | 'p' => 'P' | 'q' => 'Q' | 'r' => 'R' | 's' => 'S' | 't' => 'T'
  | 'u' => 'U' | 'v' => 'V' | 'w' => 'W' | 'x' => 'X' | 'y' => 'Y'
  | 'z' => 'Z' | c => c

/-- Whitespace characters stripped by Python str.strip with no argument
(ASCII range). -/
def pyIsSpace (c : Char) : Bool :=
  c = ' ' || c = '\t' || c = '\n' || c = '\x0d' || c = '\x0b' || c = '\x0c'

/-- Python str.lower. -/
def pyLower (s : List Char) : List Char := s.map pyLowerChar

/-- Python str.upper. -/
def pyUpper (s : List Char) : List Char := s.map pyUpperChar

/-- Python str.strip(): remove leading and trailing whitespace. -/
def pyStrip (s : List Char) : List Char :=
  ((s.dropWhile pyIsSpace).reverse.dropWhile pyIsSpace).reverse

/-- Whether pat is a prefix of l (Boolean, by character comparison). -/
def listStartsWith : List Char → List Char → Bool
  | [], _ => true
  | _ :: _, [] => false
  | p :: ps, c :: cs => p = c && listStartsWith ps cs

/-- Whether pat occurs as a contiguous substring of hay; models the Python
expression pat in hay on strings. -/
def listHasSub (hay pat : List Char) : Bool :=
  match hay with
  | [] => listStartsWith pat []
  | _ :: t => listStartsWith pat hay || listHasSub t pat

/-- ASCII decimal digit test, as used by the regex class for digits. -/
def isDigitC (c : Char) : Bool := '0' ≤ c && c ≤ '9'

/-- Numeric value of a run of decimal digit characters. -/
def digitsToNat (ds : List Char) : Nat :=
  ds.foldl (fun n c => n * 10 + (c.toNat - 48)) 0

/-- Decimal digits of a natural number, as Python str(n) renders it. -/
def natDigits (n : Nat) : List Char := Nat.toDigits 10 n

/-- Zero-pad the decimal rendering of n on the left to width w. -/
def padNat (w n : Nat) : List Char :=
  List.replicate (w - (natDigits n).length) '0' ++ natDigits n

/-- Python slice l[a:b] for non-negative bounds. -/
def pySlice {α : Type} (l : List α) (a b : Nat) : List α := (l.take b).drop a

/-- Python random.randint(lo, hi): an arbitrary seed is reduced to the
inclusive range [lo, hi]; every value of the range is reached by some seed. -/
def pyRandInt (lo hi : Int) (seed : Nat) : Int :=
  lo + Int.ofNat (seed % (hi + 1 - lo).toNat)

/-- Python random.choice(l): an arbitrary seed picks one element of l. -/
def pyChoice {α : Type} (l : List α) (dflt : α) (seed : Nat) : α :=
  l.getD (seed % l.length) dflt

/- ───────────────────────── Python dates ───────────────────────── -/

/-- A Python datetime date (the date components used by the repository). -/
structure PyDate where
  year : Nat
  month : Nat
  day : Nat
deriving DecidableEq, Repr

/-- Gregorian leap-year rule, as Python's calendar module implements it. -/
def isLeapYear (y : Nat) : Bool :=
  (y % 4 = 0 && !(y % 100 = 0)) || y % 400 = 0

/-- Number of days of month m in year y. -/
def daysInMonth (y m : Nat) : Nat :=
  if m = 2 then (if isLeapYear y then 29 else 28)
  else if m = 4 || m = 6 || m = 9 || m = 11 then 30
  else 31

/-- Validity of a PyDate, exactly the constraint datetime.date enforces. -/
def PyDate.Valid (d : PyDate) : Prop :=
  1 ≤ d.month ∧ d.month ≤ 12 ∧ 1 ≤ d.day ∧ d.day ≤ daysInMonth d.year d.month

instance (d : PyDate) : Decidable d.Valid := by
  unfold PyDate.Valid; infer_instance

/-- Python date.replace(day=newDay): raises ValueError when the new day is
out of range for the date's month. -/
def dateReplaceDay (d : PyDate) (newDay : Nat) : Except (List Char) PyDate :=
  if 1 ≤ newDay ∧ newDay ≤ daysInMonth d.year d.month then
    .ok { d with day := newDay }
  else .error "ValueError: day is out of range for month".data

/-- Python date.replace(month=newMonth, day=newDay): raises ValueError when
the new month is outside 1..12, or the new day is out of range for the new
month. -/
def dateReplaceMonthDay (d : PyDate) (newMonth newDay : Nat) :
    Except (List Char) PyDate :=
  if ¬ (1 ≤ newMonth ∧ newMonth ≤ 12) then
    .error "ValueError: month must be in 1..12".data
  else if ¬ (1 ≤ newDay ∧ newDay ≤ daysInMonth d.year newMonth) then
    .error "ValueError: day is out of range for month".data
  else .ok { d with month := newMonth, day := newDay }

/-- Successor day in the Gregorian calendar (the step of timedelta(days=1)). -/
def nextDay (d : PyDate) : PyDate :=
  if d.day < daysInMonth d.year d.month then { d with day := d.day + 1 }
  else if d.month < 12 then { d with month := d.month + 1, day := 1 }
  else { year := d.year + 1, month := 1, day := 1 }

/-- Python date + timedelta(days=n), calendar-correct. -/
def addDays (d : PyDate) : Nat → PyDate
  | 0 => d
  | n + 1 => nextDay (addDays d n)

/-- Python date.strftime with format %Y-%m-%d. -/
def formatYmd (d : PyDate) : List Char :=
  padNat 4 d.year ++ '-' :: (padNat 2 d.month ++ '-' :: padNat 2 d.day)

/-- English month names, the tail of Python calendar.month_name. -/
def monthNames : List (List Char) :=
  [ "January".data, "February".data, "March".data, "April".data,
    "May".data, "June".data, "July".data, "August".data,
    "September".data, "October".data, "November".data, "December".data ]

/-- Python calendar.month_name[m] (index 0 is the empty string; an index
above 12 raises IndexError in Python, a case no caller reaches because input
validation restricts the month to 1..12; the model returns the empty
string there). -/
def getMonthName (m : Nat) : List Char :=
  (([] : List Char) :: monthNames).getD m []

/-- Python date.strftime with format %B %d, %Y. -/
def formatBdY (d : PyDate) : List Char :=
  getMonthName d.month ++ ' ' :: (padNat 2 d.day ++ ',' :: ' ' :: padNat 4 d.year)

/- ───────────────────── Weather tool (src/tools/weather_tool.py) ───────────────────── -/

/-- Leftmost match of the regex (\d+)°U for a unit letter U: at the first
position where a non-empty digit run is immediately followed by the degree
sign and the unit letter, the value of the digit run. -/
def scanTemp (unit : Char) : List Char → Option Nat
  | [] => none
  | c :: t =>
    let ds := (c :: t).takeWhile isDigitC
    if ds ≠ [] && listStartsWith ['°', unit] ((c :: t).drop ds.length) then
      some (digitsToNat ds)
    else scanTemp unit t

/-- Leftmost match of the regex (\d+)%: value of the first non-empty digit
run immediately followed by a percent sign. -/
def scanPercent : List Char → Option Nat
  | [] => none
  | c :: t =>
    let ds := (c :: t).takeWhile isDigitC
    if ds ≠ [] && listStartsWith ['%'] ((c :: t).drop ds.length) then
      some (digitsToNat ds)
    else scanPercent t

/-- Value of a decimal literal with integer digits d1 and fractional digits
d2, as Python float() reads it (float("5.") is 5.0); written with mkRat so
that it evaluates by kernel reduction. -/
def ratOfDigits (d1 d2 : List Char) : ℚ :=
  mkRat (digitsToNat d1 * 10 ^ d2.length + digitsToNat d2) (10 ^ d2.length)

/-- Leftmost match of the regex (\d+\.?\d*)\s*(mph|km/h|m/s): number
(optionally with a decimal part), optional whitespace, then one of the three
speed units; returns the numeric value.  Greedy digit runs are equivalent to
the regex engine's backtracking here because no unit starts with a digit or
a dot. -/
def scanWind : List Char → Option ℚ
  | [] => none
  | c :: t =>
    let d1 := (c :: t).takeWhile isDigitC
    if d1 = [] then scanWind t
    else
      let r1 := (c :: t).drop d1.length
      let d2 := match r1 with
        | '.' :: r2 => r2.takeWhile isDigitC
        | _ => []
      let rest := match r1 with
        | '.' :: r2 => r2.dropWhile isDigitC
        | _ => r1
      let afterWs := rest.dropWhile pyIsSpace
      if listStartsWith "mph".data afterWs || listStartsWith "km/h".data afterWs
          || listStartsWith "m/s".data afterWs then
        some (ratOfDigits d1 d2)
      else scanWind t

/-- WeatherTool._extract_temperature: first °C (metric) or °F (imperial)
token; defaults 20.0 / 68.0 when no token matches. -/
def extractTemperature (text : List Char) (units : List Char) : ℚ :=
  if units = "metric".data then
    match scanTemp 'C' text with
    | some n => (n : ℚ)
    | none => 20
  else
    match scanTemp 'F' text with
    | some n => (n : ℚ)
    | none => 68

/-- Fixed condition keywords of WeatherTool._extract_description, in the
order the source checks them. -/
def weatherConditions : List (List Char) :=
  [ "sunny".data, "cloudy".data, "rainy".data, "clear".data,
    "partly cloudy".data, "overcast".data, "stormy".data ]

/-- WeatherTool._extract_description: first condition keyword contained in
the lower-cased text; default "moderate weather". -/
def extractDescription (text : List Char) : List Char :=
  match weatherConditions.find? (fun c => listHasSub (pyLower text) c) with
  | some c => c
  | none => "moderate weather".data

/-- WeatherTool._extract_humidity: first percentage token; default 65. -/
def extractHumidity (text : List Char) : Int :=
  match scanPercent text with
  | some n => (n : Int)
  | none => 65

/-- WeatherTool._extract_wind_speed: first speed token of the lower-cased
text; default 10.0. -/
def extractWindSpeed (text : List Char) : ℚ :=
  match scanWind (pyLower text) with
  | some q => q
  | none => 10

/-- Current-weather record, with optional fields for the keys only some of
the source's constructors put in the dictionary. -/
structure CurrentWeather where
  city : List Char
  rawData : Option (List Char)
  temperatureCelsius : ℚ
  temperatureFahrenheit : Option ℚ
  description : List Char
  humidity : Int
  windSpeed : ℚ
  feelsLikeCelsius : Option ℚ
  source : List Char
  units : Option (List Char)
deriving DecidableEq, Repr

/-- WeatherTool._get_mock_current_weather. -/
def mockCurrentWeather (city : List Char) : CurrentWeather :=
  { city := city
    rawData := none
    temperatureCelsius := 24.5
    temperatureFahrenheit := some 76.1
    description := "partly cloudy".data
    humidity := 65
    windSpeed := 12.5
    feelsLikeCelsius := some 23.8
    source := "Mock Data (AccuWeather API key not configured)".data
    units := none }

/-- WeatherTool._parse_mcp_response: the MCP content is a list of text
items; a non-empty list is mined with the extractors (never failing, each
field falling back to its default), an empty or absent list falls back to
mock data. -/
def parseMcpResponse (content : List (List Char)) (location units : List Char) :
    CurrentWeather :=
  match content with
  | [] => mockCurrentWeather location
  | t :: _ =>
    { city := location
      rawData := some t
      temperatureCelsius := extractTemperature t units
      temperatureFahrenheit :=
        if units = "metric".data then some (extractTemperature t "imperial".data)
        else none
      description := extractDescription t
      humidity := extractHumidity t
      windSpeed := extractWindSpeed t
      feelsLikeCelsius := none
      source := "MCP Weather Server (AccuWeather)".data
      units := some units }

/-- Outcome of one call to the weather MCP server, as seen by
WeatherTool._call_mcp_weather: a timeout, a raised transport/protocol
exception, a result without content, or a content payload. -/
inductive McpWeatherOutcome where
  | timeout : McpWeatherOutcome
  | exc : List Char → McpWeatherOutcome
  | noContent : McpWeatherOutcome
  | content : List (List Char) → McpWeatherOutcome
deriving DecidableEq, Repr

/-- WeatherTool._call_mcp_weather: timeouts and exceptions are caught and
answered with mock data; a result without content also falls back; a content
payload is parsed. -/
def callMcpWeather (outcome : McpWeatherOutcome) (location units : List Char) :
    CurrentWeather :=
  match outcome with
  | .timeout => mockCurrentWeather location
  | .exc _ => mockCurrentWeather location
  | .noContent => mockCurrentWeather location
  | .content items => parseMcpResponse items location units

/-- WeatherTool.get_current_weather: mock data when mock mode is on,
otherwise the MCP call (whose failures are all caught and answered with mock
data; the outer try/except adds no further behaviour since the call never
propagates an exception). -/
def getCurrentWeather (useMock : Bool) (outcome : McpWeatherOutcome)
    (city units : List Char) : CurrentWeather :=
  if useMock then mockCurrentWeather city
  else callMcpWeather outcome city units

/-- One forecast-day record. -/
structure ForecastDay where
  date : List Char
  temperatureCelsius : ℚ
  temperatureFahrenheit : ℚ
  description : List Char
  humidity : Int
  windSpeed : ℚ
deriving DecidableEq, Repr

instance {ε α : Type} [DecidableEq ε] [DecidableEq α] : DecidableEq (Except ε α) :=
  fun x y =>
    match x, y with
    | .error a, .error b => decidable_of_iff (a = b) (by simp)
    | .ok a, .ok b => decidable_of_iff (a = b) (by simp)
    | .error _, .ok _ => .isFalse (by simp)
    | .ok _, .error _ => .isFalse (by simp)

/-- Sequencing of a list of fallible computations, stopping at the first
error: the behaviour of a Python loop whose body may raise. -/
def exceptList {ε α : Type} : List (Except ε α) → Except ε (List α)
  | [] => .ok []
  | x :: xs =>
    match x with
    | .error e => .error e
    | .ok a =>
      match exceptList xs with
      | .error e => .error e
      | .ok rest => .ok (a :: rest)

/-- Day i of the real-data branch of WeatherTool.get_forecast: the source
reassigns day to day + i while that stays at most 28, and otherwise replaces
(month := month + 1, day := 1), which Python's date.replace rejects with
ValueError when the current month is December. -/
def mcpForecastDay (today : PyDate) (cur : CurrentWeather) (i : Nat) :
    Except (List Char) ForecastDay :=
  (if today.day + i ≤ 28 then dateReplaceDay today (today.day + i)
   else dateReplaceMonthDay today (today.month + 1) 1).map fun date =>
    { date := formatYmd date
      temperatureCelsius := cur.temperatureCelsius + ((i % 3 : Nat) : ℚ) - 1
      temperatureFahrenheit :=
        (cur.temperatureCelsius + ((i % 3 : Nat) : ℚ) - 1) * 9 / 5 + 32
      description := cur.description
      humidity := cur.humidity
      windSpeed := cur.windSpeed }

/-- WeatherTool._get_mock_forecast: calendar-correct dates via timedelta,
cyclic temperatures, conditions and humidity. -/
def mockForecast (today : PyDate) (numDays : Nat) : List ForecastDay :=
  (List.range numDays).map fun i =>
    let tempVariation : ℚ := ((i % 3 : Nat) : ℚ) * 2
    { date := formatYmd (addDays today i)
      temperatureCelsius := 24 + tempVariation
      temperatureFahrenheit := (24 + tempVariation) * 9 / 5 + 32
      description :=
        [ "sunny".data, "partly cloudy".data, "cloudy".data ].getD (i % 3) []
      humidity := 60 + ((i % 4 : Nat) : Int) * 5
      windSpeed := 10 + ((i % 3 : Nat) : ℚ) * 2 }

/-- WeatherTool.get_forecast: fetch the current weather; when its source is
tagged MCP, derive the forecast days with the manual date rollover (which
may raise); otherwise use the mock forecast. -/
def getForecast (today : PyDate) (useMock : Bool) (outcome : McpWeatherOutcome)
    (city : List Char) (numDays : Nat) : Except (List Char) (List ForecastDay) :=
  let current := getCurrentWeather useMock outcome city "metric".data
  if listHasSub current.source "MCP".data then
    exceptList ((List.range numDays).map (mcpForecastDay today current))
  else .ok (mockForecast today numDays)

/- ───────────────────── Flight tool (src/tools/flight_tool.py) ───────────────────── -/

/-- One flight record, with optional fields for the keys only some of the
source's constructors put in the dictionary. -/
structure Flight where
  flightNumber : List Char
  airline : List Char
  origin : List Char
  destination : List Char
  departureDate : List Char
  departureTime : List Char
  arrivalDate : List Char
  arrivalTime : List Char
  duration : List Char
  stops : Int
  price : ℚ
  currency : List Char
  deepLink : Option (List Char)
  source : List Char
  rawInfo : Option (List Char)
deriving DecidableEq, Repr

/-- Result of one flight search. -/
structure FlightsResult where
  outboundFlights : List Flight
  returnFlights : Option (List Flight)
  source : List Char
  searchFrom : List Char
  searchTo : List Char
  searchDeparture : List Char
  searchReturn : Option (List Char)
  rawResponse : Option (List Char)
deriving DecidableEq, Repr

/-- Seed streams feeding the random draws of
FlightTool._generate_mock_flights: flight i draws its price, its airline and
its stops count in that order. -/
structure RandStream where
  priceSeed : Nat → Nat
  airlineSeed : Nat → Nat
  stopsSeed : Nat → Nat

/-- Python truthiness of the optional return_date string: None and the
empty string are falsy. -/
def pyTruthyStr : Option (List Char) → Bool
  | none => false
  | some s => s ≠ []

/-- Flight i (before sorting) of FlightTool._generate_mock_flights. -/
def mockFlight (rs : RandStream) (flyFrom flyTo departureDate : List Char)
    (i : Nat) : Flight :=
  let hour := 6 + i * 3
  let price : Int := 300 + pyRandInt (-100) 200 (rs.priceSeed i)
  { flightNumber := "KW".data ++ natDigits (1000 + i)
    airline := pyChoice [ "Kiwi Airlines".data, "AirFly".data, "SkyConnect".data ]
      [] (rs.airlineSeed i)
    origin := flyFrom
    destination := flyTo
    departureDate := departureDate
    departureTime := padNat 2 hour ++ ":00".data
    arrivalDate := departureDate
    arrivalTime := padNat 2 (hour + 6) ++ ":00".data
    duration := "6h 0m".data
    stops := pyChoice [ 0, 0, 1 ] 0 (rs.stopsSeed i)
    price := (price : ℚ)
    currency := "USD".data
    deepLink := none
    source := "Mock Data".data
    rawInfo := none }

/-- Ordering used by the source's flights.sort(key=lambda x: x['price']). -/
def priceLE (a b : Flight) : Prop := a.price ≤ b.price

instance : DecidableRel priceLE := fun a b =>
  inferInstanceAs (Decidable (a.price ≤ b.price))

instance : IsTotal Flight priceLE := ⟨fun a b => le_total a.price b.price⟩

instance : IsTrans Flight priceLE := ⟨fun _ _ _ h1 h2 => le_trans h1 h2⟩

/-- FlightTool._generate_mock_flights: five flights with departure hours
6 + 3i, prices 300 + randint(-100, 200) and stops drawn from [0, 0, 1],
sorted ascending by price (Python's stable list.sort; insertion sort with a
non-strict comparison computes the same stable result); when the return date
is truthy, the first three sorted outbound flights are reused as return
flights. -/
def generateMockFlights (rs : RandStream) (flyFrom flyTo departureDate : List Char)
    (returnDate : Option (List Char)) : FlightsResult :=
  let unsorted := (List.range 5).map (mockFlight rs flyFrom flyTo departureDate)
  let sorted := List.insertionSort priceLE unsorted
  { outboundFlights := sorted
    returnFlights := if pyTruthyStr returnDate then some (sorted.take 3) else none
    source := "Mock Data (Kiwi MCP Server unavailable)".data
    searchFrom := flyFrom
    searchTo := flyTo
    searchDeparture := departureDate
    searchReturn := returnDate
    rawResponse := none }

/-- Fuel-driven scan behind findDollarPrices; each step consumes at least
one character, so fuel equal to the text length always suffices, and the
structural recursion on fuel keeps the function kernel-reducible. -/
def findDollarPricesFuel : Nat → List Char → List Nat
  | 0, _ => []
  | _ + 1, [] => []
  | fuel + 1, c :: t =>
    if c = '$' then
      let ds := t.takeWhile isDigitC
      if ds = [] then findDollarPricesFuel fuel t
      else digitsToNat ds :: findDollarPricesFuel fuel (t.drop ds.length)
    else findDollarPricesFuel fuel t

/-- Leftmost-to-right non-overlapping matches of the regex \$(\d+), as
re.findall returns them: each dollar sign followed by a non-empty digit run
contributes the run's value, scanning resuming after the run. -/
def findDollarPrices (l : List Char) : List Nat :=
  findDollarPricesFuel l.length l

/-- FlightTool._parse_text_response: one synthetic flight per extracted
dollar price (at most five), with placeholder times 8 + 2i / 14 + 2i. -/
def parseTextResponse (text flyFrom flyTo date : List Char) : List Flight :=
  ((findDollarPrices text).take 5).enum.map fun p =>
    { flightNumber := "KW".data ++ natDigits (1000 + p.1)
      airline := "Kiwi Airlines".data
      origin := flyFrom
      destination := flyTo
      departureDate := date
      departureTime := natDigits (8 + p.1 * 2) ++ ":00".data
      arrivalDate := date
      arrivalTime := natDigits (14 + p.1 * 2) ++ ":00".data
      duration := "6h 0m".data
      stops := 0
      price := (p.2 : ℚ)
      currency := "USD".data
      deepLink := none
      source := "Kiwi.com MCP Server".data
      rawInfo := some (text.take 200) }

/-- One flight dictionary of a structured Kiwi JSON response, restricted to
the keys FlightTool._parse_single_kiwi_flight reads; hashMod models
hash(str(flight_data)) % 10000, the placeholder id Python computes from the
dictionary's text when the id key is absent. -/
structure KiwiFlightJson where
  id : Option (List Char)
  airlines : Option (List (List Char))
  localDeparture : Option (List Char)
  localArrival : Option (List Char)
  flyDuration : Option (List Char)
  route : Option (List Unit)
  price : Option ℚ
  currency : Option (List Char)
  deepLink : Option (List Char)
  hashMod : Nat
deriving DecidableEq, Repr

/-- Python slice s[-8:-3] (used for the time part of Kiwi local timestamps). -/
def pySliceNeg8Neg3 (s : List Char) : List Char :=
  pySlice s (s.length - 8) (s.length - 3)

/-- FlightTool._parse_single_kiwi_flight: field-by-field extraction with
defaults; the only reachable exception is the IndexError of airlines[0] on
an empty airline list, which the source catches and turns into None. -/
def parseSingleKiwiFlight (f : KiwiFlightJson) (flyFrom flyTo : List Char) :
    Option Flight :=
  match f.airlines with
  | some [] => none
  | _ =>
    some
      { flightNumber :=
          match f.id with
          | some v => v
          | none => "KW".data ++ natDigits f.hashMod
        airline :=
          match f.airlines with
          | some (a :: _) => a
          | _ => "Kiwi Airlines".data
        origin := flyFrom
        destination := flyTo
        departureDate := (f.localDeparture.getD []).take 10
        departureTime := pySliceNeg8Neg3 (f.localDeparture.getD [])
        arrivalDate := (f.localArrival.getD []).take 10
        arrivalTime := pySliceNeg8Neg3 (f.localArrival.getD [])
        duration := f.flyDuration.getD "N/A".data
        stops := ((f.route.getD []).length : Int) - 1
        price := f.price.getD 0
        currency := f.currency.getD "USD".data
        deepLink := some (f.deepLink.getD "https://www.kiwi.com".data)
        source := "Kiwi.com MCP Server".data
        rawInfo := none }

/-- Parse outcome of the first Kiwi content item: a JSON object carrying a
data list of flights, some other successfully decoded JSON value, or text
that json.loads rejects (JSONDecodeError). -/
inductive KiwiPayload where
  | jsonFlights : List KiwiFlightJson → KiwiPayload
  | jsonOther : KiwiPayload
  | text : List Char → KiwiPayload
deriving Repr

/-- FlightTool._parse_kiwi_response: structured data takes the first five
flights; non-JSON text is mined for dollar prices; whenever no outbound
flight results by either route (or the content list is empty), mock flights
are substituted. -/
def parseKiwiResponse (rs : RandStream) (content : List KiwiPayload)
    (flyFrom flyTo departureDate : List Char) (returnDate : Option (List Char)) :
    FlightsResult :=
  match content with
  | [] => generateMockFlights rs flyFrom flyTo departureDate returnDate
  | payload :: _ =>
    match payload with
    | .jsonFlights data =>
      let obf := (data.take 5).filterMap (fun f => parseSingleKiwiFlight f flyFrom flyTo)
      if obf ≠ [] then
        { outboundFlights := obf
          returnFlights := none
          source := "Kiwi MCP Server (Real Data)".data
          searchFrom := flyFrom
          searchTo := flyTo
          searchDeparture := departureDate
          searchReturn := returnDate
          rawResponse := none }
      else generateMockFlights rs flyFrom flyTo departureDate returnDate
    | .jsonOther => generateMockFlights rs flyFrom flyTo departureDate returnDate
    | .text t =>
      let obf := parseTextResponse t flyFrom flyTo departureDate
      if obf ≠ [] then
        { outboundFlights := obf
          returnFlights := none
          source := "Kiwi MCP Server (Real Data)".data
          searchFrom := flyFrom
          searchTo := flyTo
          searchDeparture := departureDate
          searchReturn := returnDate
          rawResponse := some t }
      else generateMockFlights rs flyFrom flyTo departureDate returnDate

/-- Outcome of one call to the Kiwi MCP server, as seen by
FlightTool._call_kiwi_mcp. -/
inductive KiwiOutcome where
  | timeout : KiwiOutcome
  | exc : List Char → KiwiOutcome
  | noContent : KiwiOutcome
  | content : List KiwiPayload → KiwiOutcome
deriving Repr

/-- FlightTool.search_flights: the MCP call; every failure path (timeout,
exception, missing content) is caught and answered with mock flights. -/
def searchFlights (rs : RandStream) (outcome : KiwiOutcome)
    (departureDate flyFrom flyTo : List Char) (returnDate : Option (List Char)) :
    FlightsResult :=
  match outcome with
  | .content items => parseKiwiResponse rs items flyFrom flyTo departureDate returnDate
  | _ => generateMockFlights rs flyFrom flyTo departureDate returnDate

/-- FlightTool.get_best_flights: truncate the outbound flights (and the
return flights when present) of a search to num_results; the raw response,
if any, is not copied into the result. -/
def getBestFlights (rs : RandStream) (outcome : KiwiOutcome)
    (departureDate flyFrom flyTo : List Char) (returnDate : Option (List Char))
    (numResults : Nat) : FlightsResult :=
  let allFlights := searchFlights rs outcome departureDate flyFrom flyTo returnDate
  { outboundFlights := allFlights.outboundFlights.take numResults
    returnFlights := allFlights.returnFlights.map (·.take numResults)
    source := allFlights.source
    searchFrom := allFlights.searchFrom
    searchTo := allFlights.searchTo
    searchDeparture := allFlights.searchDeparture
    searchReturn := allFlights.searchReturn
    rawResponse := none }

/- ───────────────────── Places tool (src/tools/places_tool.py) ───────────────────── -/

/-- Fixed interior-day themes of PlacesTool._get_day_theme, in source
order. -/
def themes : List (List Char) :=
  [ "Historical Exploration".data
  , "Cultural Immersion".data
  , "Natural Beauty".data
  , "Local Experiences".data
  , "Adventure & Entertainment".data
  , "Relaxation & Leisure".data
  , "Shopping & Cuisine".data ]

/-- PlacesTool._get_day_theme: day 0 is the arrival day, the last day (when
distinct from day 0, since the first branch is tested first) is the
highlights day, interior days cycle through the seven fixed themes. -/
def getDayTheme (day totalDays : Nat) : List Char :=
  if day = 0 then "Arrival & City Orientation".data
  else if day = totalDays - 1 then "Final Day Highlights".data
  else themes.getD (day % themes.length) []

/-- One itinerary day entry.  The places produced by
PlacesTool.search_places are randomized records none of whose fields the
verified claims inspect, so the place type is kept abstract and
PlacesTool._suggest_activities (whose output order depends on Python set
iteration order) is passed as a function. -/
structure DayPlanEntry (P : Type) where
  day : Nat
  theme : List Char
  places : List P
  activities : List (List Char)

/-- PlacesTool.create_itinerary_suggestions: one entry per day in
0 ≤ day < numDays, numbered from 1, themed by _get_day_theme, carrying the
day's contiguous chunk of max(pool / numDays, 2) places.  (In Python,
numDays = 0 would raise ZeroDivisionError; every caller is validated to
numDays ≥ 1.) -/
def createItinerarySuggestions {P : Type} (suggest : List P → List (List Char))
    (allPlaces : List P) (numDays : Nat) : List (DayPlanEntry P) :=
  let placesPerDay := max (allPlaces.length / numDays) 2
  (List.range numDays).map fun day =>
    let dayPlaces := pySlice allPlaces (day * placesPerDay)
      (day * placesPerDay + placesPerDay)
    { day := day + 1
      theme := getDayTheme day numDays
      places := dayPlaces
      activities := suggest dayPlaces }

/- ───────────── Plan composer (src/agents/travel_agent.py) ───────────── -/

/-- Fixed city-to-code table of TravelPlanningAgent._get_city_code, in
source order. -/
def cityCodes : List (List Char × List Char) :=
  [ ("new york".data, "NYC".data)
  , ("nyc".data, "NYC".data)
  , ("paris".data, "PAR".data)
  , ("london".data, "LON".data)
  , ("tokyo".data, "TYO".data)
  , ("los angeles".data, "LAX".data)
  , ("chicago".data, "CHI".data)
  , ("san francisco".data, "SFO".data)
  , ("miami".data, "MIA".data)
  , ("boston".data, "BOS".data)
  , ("seattle".data, "SEA".data)
  , ("rome".data, "ROM".data)
  , ("barcelona".data, "BCN".data)
  , ("amsterdam".data, "AMS".data)
  , ("dubai".data, "DXB".data)
  , ("singapore".data, "SIN".data)
  , ("hong kong".data, "HKG".data)
  , ("sydney".data, "SYD".data)
  , ("delhi".data, "DEL".data)
  , ("mumbai".data, "BOM".data) ]

/-- TravelPlanningAgent._get_city_code: look the lower-cased, stripped name
up in the fixed table; unknown names fall back to the upper-cased first
three characters of the original input. -/
def getCityCode (city : List Char) : List Char :=
  match cityCodes.find? (fun p => decide (p.1 = pyStrip (pyLower city))) with
  | some p => p.2
  | none => pyUpper (city.take 3)

/-- One suggested travel window (period label, formatted start and end
dates). -/
structure DateSuggestion where
  period : List Char
  startDate : List Char
  endDate : List Char
deriving DecidableEq, Repr

/-- The aggregate travel plan (the timestamp generated_at and the constant
mcp_servers_used description mapping of the source are presentation
metadata carried unchanged to the renderer and are not modelled). -/
structure TravelPlan (P : Type) where
  destination : List Char
  origin : List Char
  duration : List Char
  travelMonth : List Char
  culturalContext : List Char
  weatherCurrent : CurrentWeather
  weatherForecast : List ForecastDay
  suggestedDates : List DateSuggestion
  flights : FlightsResult
  itinerary : List (DayPlanEntry P)

/-- Environment of one create_travel_plan run: the current date, the mock
flag and the outcomes of the external calls (weather MCP, Kiwi MCP, LLM),
the seeds of the flight generator's random draws, and the randomized place
pool returned by PlacesTool.search_places together with the
set-iteration-order-dependent _suggest_activities. -/
structure AgentEnv (P : Type) where
  today : PyDate
  useMockWeather : Bool
  weatherOutcome : McpWeatherOutcome
  kiwiOutcome : KiwiOutcome
  flightRand : RandStream
  llmResponse : Option (List Char)
  allPlaces : List P
  suggest : List P → List (List Char)

/-- Fallback narrative of TravelPlanningAgent._generate_cultural_context
when the LLM call raises. -/
def fallbackContext (destination : List Char) : List Char :=
  destination ++ " is a remarkable destination known for its rich cultural heritage and historical significance. The city offers a unique blend of tradition and modernity, making it an ideal destination for travelers seeking authentic experiences. Visitors can explore numerous historical sites, immerse themselves in local culture, and enjoy the vibrant atmosphere that ".data
    ++ destination ++ " has to offer.".data

/-- TravelPlanningAgent._generate_cultural_context: the LLM's text, or the
fixed fallback paragraph when the call raises. -/
def generateCulturalContext (llmResponse : Option (List Char))
    (destination : List Char) : List Char :=
  match llmResponse with
  | some t => t
  | none => fallbackContext destination

/-- TravelPlanningAgent.create_travel_plan: departure is today + 2 days and
return follows numDays later; the weather section (current plus a forecast
of at most five days) is fetched first and is the only component that can
raise; three date windows (+0, +7, +14 days) are suggested; flights are the
best three of a search between the converted city codes; the itinerary has
one entry per day. -/
def createTravelPlan {P : Type} (env : AgentEnv P) (destination : List Char)
    (numDays : Nat) (travelMonth : Nat) (origin : List Char) :
    Except (List Char) (TravelPlan P) :=
  let departureDateObj := addDays env.today 2
  let returnDateObj := addDays departureDateObj numDays
  let departureDate := formatYmd departureDateObj
  let returnDate := formatYmd returnDateObj
  let culturalContext := generateCulturalContext env.llmResponse destination
  let current := getCurrentWeather env.useMockWeather env.weatherOutcome
    destination "metric".data
  (getForecast env.today env.useMockWeather env.weatherOutcome destination
      (min numDays 5)).map fun forecast =>
    let dateSuggestions :=
      [ { period := "Suggested Dates".data
          startDate := formatBdY departureDateObj
          endDate := formatBdY returnDateObj }
      , { period := "Alternative (+1 week)".data
          startDate := formatBdY (addDays departureDateObj 7)
          endDate := formatBdY (addDays returnDateObj 7) }
      , { period := "Alternative (+2 weeks)".data
          startDate := formatBdY (addDays departureDateObj 14)
          endDate := formatBdY (addDays returnDateObj 14) } ]
    let originCode := getCityCode origin
    let destCode := getCityCode destination
    let flightOptions := getBestFlights env.flightRand env.kiwiOutcome
      departureDate originCode destCode (some returnDate) 3
    let itinerary := createItinerarySuggestions env.suggest env.allPlaces numDays
    { destination := destination
      origin := origin
      duration := natDigits numDays ++ " days".data
      travelMonth := getMonthName travelMonth
      culturalContext := culturalContext
      weatherCurrent := current
      weatherForecast := forecast
      suggestedDates := dateSuggestions
      flights := flightOptions
      itinerary := itinerary }

/-- Concrete environment used to witness the end-to-end composer theorem:
mock mode for weather, failing flight MCP, no LLM, an empty place pool. -/
def sampleEnv : AgentEnv Unit :=
  { today := ⟨2025, 6, 1⟩
    useMockWeather := true
    weatherOutcome := .timeout
    kiwiOutcome := .timeout
    flightRand := ⟨fun _ => 0, fun _ => 0, fun _ => 0⟩
    llmResponse := none
    allPlaces := []
    suggest := fun _ => [] }

/-- Placeholder plan for the unreachable error branch of samplePlan. -/
def emptyPlan : TravelPlan Unit :=
  { destination := []
    origin := []
    duration := []
    travelMonth := []
    culturalContext := []
    weatherCurrent := mockCurrentWeather []
    weatherForecast := []
    suggestedDates := []
    flights :=
      { outboundFlights := []
        returnFlights := none
        source := []
        searchFrom := []
        searchTo := []
        searchDeparture := []
        searchReturn := none
        rawResponse := none }
    itinerary := [] }

/-- The plan the composer produces on the sample environment (the mock
weather branch cannot raise, so the error branch is unreachable). -/
def samplePlan : TravelPlan Unit :=
  match createTravelPlan sampleEnv "Paris".data 5 6 "NYC".data with
  | .ok p => p
  | .error _ => emptyPlan

/- ═════════════════════════ Helper lemmas ═════════════════════════ -/

theorem listStartsWith_self_append (p r : List Char) :
    listStartsWith p (p ++ r) = true := by
  induction p with
  | nil => rfl
  | cons c t ih => simp [listStartsWith, ih]

theorem listStartsWith_ex {p l : List Char} (h : listStartsWith p l = true) :
    ∃ r, l = p ++ r := by
  induction p generalizing l with
  | nil => exact ⟨l, rfl⟩
  | cons c t ih =>
    cases l with
    | nil => simp [listStartsWith] at h
    | cons a m =>
      simp only [listStartsWith, Bool.and_eq_true, decide_eq_true_eq] at h
      obtain ⟨r, hr⟩ := ih h.2
      exact ⟨r, by simp [h.1, hr]⟩

theorem listHasSub_of_startsWith {pat l : List Char}
    (h : listStartsWith pat l = true) : listHasSub l pat = true := by
  cases l with
  | nil => exact h
  | cons a t => simp [listHasSub, h]

theorem listHasSub_ex {hay pat : List Char} (h : listHasSub hay pat = true) :
    ∃ u v, hay = u ++ pat ++ v := by
  induction hay with
  | nil =>
    cases pat with
    | nil => exact ⟨[], [], rfl⟩
    | cons c t => simp [listHasSub, listStartsWith] at h
  | cons a t ih =>
    simp only [listHasSub, Bool.or_eq_true] at h
    rcases h with h | h
    · obtain ⟨r, hr⟩ := listStartsWith_ex h
      exact ⟨[], r, by simp [hr]⟩
    · obtain ⟨u, v, huv⟩ := ih h
      exact ⟨a :: u, v, by simp [huv]⟩

theorem listHasSub_intro (u pat v : List Char) :
    listHasSub (u ++ pat ++ v) pat = true := by
  induction u with
  | nil =>
    simp only [List.nil_append]
    exact listHasSub_of_startsWith (listStartsWith_self_append pat v)
  | cons a u ih =>
    simp only [List.cons_append, listHasSub, Bool.or_eq_true]
    exact Or.inr ih

theorem hasSub_cloudy_of_hasSub_partly {t : List Char}
    (h : listHasSub t "partly cloudy".data = true) :
    listHasSub t "cloudy".data = true := by
  obtain ⟨u, v, huv⟩ := listHasSub_ex h
  have hsplit : "partly cloudy".data = "partly ".data ++ "cloudy".data := by decide
  have : t = (u ++ "partly ".data) ++ "cloudy".data ++ v := by
    rw [huv, hsplit]; simp
  rw [this]; exact listHasSub_intro _ _ _

theorem exceptList_ok_length {ε α : Type} {l : List (Except ε α)} {r : List α}
    (h : exceptList l = .ok r) : r.length = l.length := by
  induction l generalizing r with
  | nil => simp [exceptList] at h; simp [← h]
  | cons x xs ih =>
    cases x with
    | error e => simp [exceptList] at h
    | ok a =>
      cases hx : exceptList xs with
      | error e => rw [exceptList, hx] at h; simp at h
      | ok rest =>
        rw [exceptList, hx] at h
        simp only [Except.ok.injEq] at h
        subst h
        simp [ih hx]

theorem addDays_addDays (d : PyDate) (m n : Nat) :
    addDays (addDays d m) n = addDays d (m + n) := by
  induction n with
  | zero => rfl
  | succ k ih => rw [show m + (k + 1) = (m + k) + 1 by omega, addDays, addDays, ih]

theorem getForecast_ok_length {today : PyDate} {useMock : Bool}
    {o : McpWeatherOutcome} {city : List Char} {n : Nat}
    {fc : List ForecastDay}
    (h : getForecast today useMock o city n = .ok fc) : fc.length = n := by
  simp only [getForecast] at h
  split at h
  · have := exceptList_ok_length h
    simpa using this
  · simp only [Except.ok.injEq] at h
    subst h
    simp [mockForecast]

/- ═════════════════════════ Claim theorems ═════════════════════════ -/

/-- C1: the claim says the weather adapter never propagates an error, for
every current date including December.  The code violates this: in the
real-data branch, the forecast-day rollover calls date.replace with
month 13 whenever the current month is December and day + i exceeds 28,
which raises ValueError.  This theorem evaluates the embedded get_forecast
at the failing input (today = 2025-12-29, an MCP-tagged current-weather
payload, one requested day): it returns the ValueError instead of a
forecast. -/
theorem getForecast_december_valueerror :
    getForecast ⟨2025, 12, 29⟩ false
        (.content [ "Currently 22°C and cloudy".data ]) "Paris".data 1
      = .error "ValueError: month must be in 1..12".data := by decide

/-- C5: when the external weather call times out or raises, the adapter
returns the fixed mock reading (24.5°C, 65% humidity, wind 12.5) whose
source tag contains "Mock", and never raises — the embedding is total, and
every failure outcome maps to the mock record. -/
theorem getCurrentWeather_transport_failure_mock (useMock : Bool)
    (o : McpWeatherOutcome) (city units : List Char)
    (h : o = .timeout ∨ ∃ m, o = .exc m) :
    getCurrentWeather useMock o city units = mockCurrentWeather city ∧
    (mockCurrentWeather city).temperatureCelsius = 24.5 ∧
    (mockCurrentWeather city).humidity = 65 ∧
    (mockCurrentWeather city).windSpeed = 12.5 ∧
    listHasSub (mockCurrentWeather city).source "Mock".data = true := by
  refine ⟨?_, rfl, rfl, rfl, ?_⟩
  · rcases h with h | ⟨m, h⟩ <;> subst h <;>
      cases useMock <;> simp [getCurrentWeather, callMcpWeather]
  · show listHasSub "Mock Data (AccuWeather API key not configured)".data
      "Mock".data = true
    decide

theorem getCurrentWeather_transport_failure_mock_witness :
    ((McpWeatherOutcome.timeout = .timeout ∨
        ∃ m, McpWeatherOutcome.timeout = .exc m) ∧
      (getCurrentWeather false .timeout "Paris".data "metric".data
          = mockCurrentWeather "Paris".data ∧
        (mockCurrentWeather "Paris".data).temperatureCelsius = 24.5 ∧
        (mockCurrentWeather "Paris".data).humidity = 65 ∧
        (mockCurrentWeather "Paris".data).windSpeed = 12.5 ∧
        listHasSub (mockCurrentWeather "Paris".data).source "Mock".data = true)) :=
  ⟨Or.inl rfl,
    getCurrentWeather_transport_failure_mock false .timeout "Paris".data
      "metric".data (Or.inl rfl)⟩

/-- C9: in the synthetic flight generator, a provided (truthy) return date
makes return_flights exactly the first three elements of the price-sorted
outbound list, and with no return date the result carries no return_flights
field. -/
theorem generateMockFlights_return_reuse (rs : RandStream)
    (flyFrom flyTo dep rd : List Char) (h : rd ≠ []) :
    (generateMockFlights rs flyFrom flyTo dep (some rd)).returnFlights
      = some ((generateMockFlights rs flyFrom flyTo dep (some rd)).outboundFlights.take 3) ∧
    (generateMockFlights rs flyFrom flyTo dep none).returnFlights = none := by
  constructor
  · simp [generateMockFlights, pyTruthyStr, h]
  · simp [generateMockFlights, pyTruthyStr]

theorem generateMockFlights_return_reuse_witness :
    ("2025-07-01".data ≠ ([] : List Char)) ∧
    ((generateMockFlights ⟨fun _ => 0, fun _ => 0, fun _ => 0⟩ "NYC".data
        "PAR".data "2025-06-24".data (some "2025-07-01".data)).returnFlights
      = some ((generateMockFlights ⟨fun _ => 0, fun _ => 0, fun _ => 0⟩ "NYC".data
        "PAR".data "2025-06-24".data (some "2025-07-01".data)).outboundFlights.take 3) ∧
    (generateMockFlights ⟨fun _ => 0, fun _ => 0, fun _ => 0⟩ "NYC".data
        "PAR".data "2025-06-24".data none).returnFlights = none) :=
  ⟨by decide,
    generateMockFlights_return_reuse ⟨fun _ => 0, fun _ => 0, fun _ => 0⟩
      "NYC".data "PAR".data "2025-06-24".data "2025-07-01".data (by decide)⟩

/-- C4, counterexample: the claim asserts that a weather payload with no
extractable token is answered with a mock-tagged record.  On the payload
"hello" — which matches no temperature, percentage, speed or condition
token — the parser instead returns a record tagged with the real-service
source "MCP Weather Server (AccuWeather)". -/
theorem parseMcpResponse_unextractable_not_mock :
    scanTemp 'C' "hello".data = none ∧
    scanPercent "hello".data = none ∧
    scanWind (pyLower "hello".data) = none ∧
    weatherConditions.find? (fun c => listHasSub (pyLower "hello".data) c) = none ∧
    (parseMcpResponse [ "hello".data ] "Paris".data "metric".data).source
      = "MCP Weather Server (AccuWeather)".data ∧
    listHasSub (parseMcpResponse [ "hello".data ] "Paris".data "metric".data).source
      "Mock".data = false := by decide

/-- C4, amended: for flights, a payload with nothing extractable (non-JSON
text with no dollar price, or JSON that is not a flight list) does trigger
the synthetic fallback, whose record carries the mock source tag; for
weather, a non-empty text payload never signals failure — the record is
tagged with the real-service source and filled with per-field defaults
(20.0°C, 65%, wind 10.0, description "moderate weather"). -/
theorem normalizer_failure_fallback (t : List Char) (more : List KiwiPayload)
    (rs : RandStream) (flyFrom flyTo dep : List Char) (rd : Option (List Char))
    (w : List Char) (morew : List (List Char)) (city units : List Char)
    (h : findDollarPrices t = []) :
    (parseKiwiResponse rs (.text t :: more) flyFrom flyTo dep rd).source
      = "Mock Data (Kiwi MCP Server unavailable)".data ∧
    (parseKiwiResponse rs (.jsonOther :: more) flyFrom flyTo dep rd).source
      = "Mock Data (Kiwi MCP Server unavailable)".data ∧
    (parseMcpResponse (w :: morew) city units).source
      = "MCP Weather Server (AccuWeather)".data := by
  refine ⟨?_, rfl, rfl⟩
  simp [parseKiwiResponse, parseTextResponse, h, generateMockFlights]

theorem normalizer_failure_fallback_witness :
    (findDollarPrices "no prices here".data = []) ∧
    ((parseKiwiResponse ⟨fun _ => 0, fun _ => 0, fun _ => 0⟩
        [ .text "no prices here".data ] "NYC".data "PAR".data
        "2025-06-24".data none).source
      = "Mock Data (Kiwi MCP Server unavailable)".data ∧
    (parseKiwiResponse ⟨fun _ => 0, fun _ => 0, fun _ => 0⟩
        [ .jsonOther ] "NYC".data "PAR".data "2025-06-24".data none).source
      = "Mock Data (Kiwi MCP Server unavailable)".data ∧
    (parseMcpResponse [ "hi".data ] "Paris".data "metric".data).source
      = "MCP Weather Server (AccuWeather)".data) :=
  ⟨by decide,
    normalizer_failure_fallback "no prices here".data [] ⟨fun _ => 0, fun _ => 0, fun _ => 0⟩
      "NYC".data "PAR".data "2025-06-24".data none "hi".data [] "Paris".data
      "metric".data (by decide)⟩

/-- C8, counterexample: the claim quantifies over every text containing the
tokens "22°C", "60%", "5 m/s" and "cloudy".  The text
"sunny 122°C 60% 5 m/s cloudy" contains all four tokens, yet the
temperature extractor returns 122 (the first regex match, not the contained
token "22°C") and the description extractor returns "sunny" (checked before
"cloudy"), which does not contain "cloudy". -/
theorem extractors_token_claim_fails :
    listHasSub "sunny 122°C 60% 5 m/s cloudy".data "22°C".data = true ∧
    listHasSub "sunny 122°C 60% 5 m/s cloudy".data "60%".data = true ∧
    listHasSub "sunny 122°C 60% 5 m/s cloudy".data "5 m/s".data = true ∧
    listHasSub (pyLower "sunny 122°C 60% 5 m/s cloudy".data) "cloudy".data = true ∧
    extractTemperature "sunny 122°C 60% 5 m/s cloudy".data "metric".data = 122 ∧
    extractTemperature "sunny 122°C 60% 5 m/s cloudy".data "metric".data ≠ 22 ∧
    extractDescription "sunny 122°C 60% 5 m/s cloudy".data = "sunny".data ∧
    listHasSub (extractDescription "sunny 122°C 60% 5 m/s cloudy".data)
      "cloudy".data = false := by decide

/-- C8, amended: for every text whose first temperature match is 22, whose
first percentage match is 60, whose first speed match is 5, and which
contains "cloudy" but not "sunny" (the keyword checked before it), the
extractors return temperature 22.0, humidity 60, wind 5.0 and the
description "cloudy". -/
theorem extractors_token_extraction (t : List Char)
    (h1 : scanTemp 'C' t = some 22)
    (h2 : scanPercent t = some 60)
    (h3 : scanWind (pyLower t) = some 5)
    (h4 : listHasSub (pyLower t) "cloudy".data = true)
    (h5 : listHasSub (pyLower t) "sunny".data = false) :
    extractTemperature t "metric".data = 22 ∧
    extractHumidity t = 60 ∧
    extractWindSpeed t = 5 ∧
    extractDescription t = "cloudy".data ∧
    listHasSub (extractDescription t) "cloudy".data = true := by
  have hdesc : extractDescription t = "cloudy".data := by
    simp [extractDescription, weatherConditions, List.find?, h4, h5]
  refine ⟨?_, ?_, ?_, hdesc, ?_⟩
  · simp [extractTemperature, h1]
  · simp [extractHumidity, h2]
  · simp [extractWindSpeed, h3]
  · rw [hdesc]; decide

theorem extractors_token_extraction_witness :
    (scanTemp 'C' "22°C, 60% humidity, wind 5 m/s, cloudy".data = some 22 ∧
      scanPercent "22°C, 60% humidity, wind 5 m/s, cloudy".data = some 60 ∧
      scanWind (pyLower "22°C, 60% humidity, wind 5 m/s, cloudy".data) = some 5 ∧
      listHasSub (pyLower "22°C, 60% humidity, wind 5 m/s, cloudy".data)
        "cloudy".data = true ∧
      listHasSub (pyLower "22°C, 60% humidity, wind 5 m/s, cloudy".data)
        "sunny".data = false) ∧
    (extractTemperature "22°C, 60% humidity, wind 5 m/s, cloudy".data
        "metric".data = 22 ∧
      extractHumidity "22°C, 60% humidity, wind 5 m/s, cloudy".data = 60 ∧
      extractWindSpeed "22°C, 60% humidity, wind 5 m/s, cloudy".data = 5 ∧
      extractDescription "22°C, 60% humidity, wind 5 m/s, cloudy".data
        = "cloudy".data ∧
      listHasSub (extractDescription "22°C, 60% humidity, wind 5 m/s, cloudy".data)
        "cloudy".data = true) :=
  ⟨⟨by decide, by decide, by decide, by decide, by decide⟩,
    extractors_token_extraction "22°C, 60% humidity, wind 5 m/s, cloudy".data
      (by decide) (by decide) (by decide) (by decide) (by decide)⟩

/-- C2: for every pool of places and every trip length N in [1, 30], the
itinerary has exactly N entries numbered 1..N in order; entry 0's theme is
the arrival theme (also when N = 1, the first-day branch being tested
first), the last entry's theme is "Final Day Highlights" exactly when
N > 1, and each interior day i carries the cyclic theme themes[i mod 7] of
the fixed 7-theme list. -/
theorem createItinerary_count_and_themes {P : Type}
    (suggest : List P → List (List Char)) (allPlaces : List P)
    (N : Nat) (h1 : 1 ≤ N) (h2 : N ≤ 30) :
    (createItinerarySuggestions suggest allPlaces N).length = N ∧
    (∀ i (hi : i < (createItinerarySuggestions suggest allPlaces N).length),
      ((createItinerarySuggestions suggest allPlaces N).get ⟨i, hi⟩).day = i + 1) ∧
    (∀ h0 : 0 < (createItinerarySuggestions suggest allPlaces N).length,
      ((createItinerarySuggestions suggest allPlaces N).get ⟨0, h0⟩).theme
        = "Arrival & City Orientation".data) ∧
    (((createItinerarySuggestions suggest allPlaces N).getLast?.map
        (fun e => e.theme) = some "Final Day Highlights".data) ↔ 1 < N) ∧
    (∀ i (hi : i < (createItinerarySuggestions suggest allPlaces N).length),
      0 < i → i < N - 1 →
      ((createItinerarySuggestions suggest allPlaces N).get ⟨i, hi⟩).theme
        = themes.getD (i % 7) []) ∧
    themes.length = 7 := by
  have hlen : (createItinerarySuggestions suggest allPlaces N).length = N := by
    simp [createItinerarySuggestions]
  have hthm : ∀ i (hi : i < (createItinerarySuggestions suggest allPlaces N).length),
      ((createItinerarySuggestions suggest allPlaces N).get ⟨i, hi⟩).theme
        = getDayTheme i N := by
    intro i hi
    simp [createItinerarySuggestions, List.get_eq_getElem, List.getElem_map,
      List.getElem_range]
  refine ⟨hlen, ?_, ?_, ?_, ?_, rfl⟩
  · intro i hi
    simp [createItinerarySuggestions, List.get_eq_getElem, List.getElem_map,
      List.getElem_range]
  · intro h0
    rw [hthm 0 h0]
    simp [getDayTheme]
  · rw [List.getLast?_eq_getElem?, hlen]
    have hNlt : N - 1 < N := by omega
    have hgl : (createItinerarySuggestions suggest allPlaces N)[N - 1]?
        = some { day := N, theme := getDayTheme (N - 1) N,
                 places := pySlice allPlaces
                   ((N - 1) * max (allPlaces.length / N) 2)
                   ((N - 1) * max (allPlaces.length / N) 2
                     + max (allPlaces.length / N) 2),
                 activities := suggest (pySlice allPlaces
                   ((N - 1) * max (allPlaces.length / N) 2)
                   ((N - 1) * max (allPlaces.length / N) 2
                     + max (allPlaces.length / N) 2)) } := by
      simp [createItinerarySuggestions, List.getElem?_map,
        List.getElem?_range hNlt]
      omega
    rw [hgl]
    show (some (getDayTheme (N - 1) N) = some "Final Day Highlights".data)
      ↔ 1 < N
    rw [Option.some_inj]
    rcases Nat.lt_or_ge 1 N with hN | hN
    · have hne : ¬ (N - 1 = 0) := by omega
      have hF : getDayTheme (N - 1) N = "Final Day Highlights".data := by
        simp [getDayTheme, hne]
      exact iff_of_true hF hN
    · have hN1 : N = 1 := by omega
      subst hN1
      exact iff_of_false (by decide) (by omega)
  · intro i hi h0 hi2
    rw [hthm i hi]
    have e0 : ¬ i = 0 := by omega
    have e1 : ¬ i = N - 1 := by omega
    simp [getDayTheme, e0, e1, themes]

theorem createItinerary_count_and_themes_witness :
    1 ≤ 3 ∧ 3 ≤ 30 ∧
    ((createItinerarySuggestions (fun _ : List Unit => []) ([] : List Unit) 3).length = 3 ∧
    (∀ i (hi : i < (createItinerarySuggestions (fun _ : List Unit => [])
        ([] : List Unit) 3).length),
      ((createItinerarySuggestions (fun _ : List Unit => [])
        ([] : List Unit) 3).get ⟨i, hi⟩).day = i + 1) ∧
    (∀ h0 : 0 < (createItinerarySuggestions (fun _ : List Unit => [])
        ([] : List Unit) 3).length,
      ((createItinerarySuggestions (fun _ : List Unit => [])
        ([] : List Unit) 3).get ⟨0, h0⟩).theme
        = "Arrival & City Orientation".data) ∧
    (((createItinerarySuggestions (fun _ : List Unit => [])
        ([] : List Unit) 3).getLast?.map (fun e => e.theme)
        = some "Final Day Highlights".data) ↔ 1 < 3) ∧
    (∀ i (hi : i < (createItinerarySuggestions (fun _ : List Unit => [])
        ([] : List Unit) 3).length),
      0 < i → i < 3 - 1 →
      ((createItinerarySuggestions (fun _ : List Unit => [])
        ([] : List Unit) 3).get ⟨i, hi⟩).theme = themes.getD (i % 7) []) ∧
    themes.length = 7) :=
  ⟨by norm_num, by norm_num,
    createItinerary_count_and_themes (fun _ : List Unit => []) [] 3
      (by norm_num) (by norm_num)⟩

/-- C3: the synthetic flight generator always returns exactly five outbound
flights, sorted non-decreasing by price; every returned flight is one of
the five generated ones; flight i's price is 300 plus the randint draw in
[-100, 200] (hence between 200 and 500) and its stops value is 0 or 1; the
pre-sort departure times are 06:00, 09:00, 12:00, 15:00, 18:00 (hours
6 + 3i). -/
theorem generateMockFlights_shape (rs : RandStream) (flyFrom flyTo dep : List Char)
    (ret : Option (List Char)) :
    (generateMockFlights rs flyFrom flyTo dep ret).outboundFlights.length = 5 ∧
    List.Sorted priceLE (generateMockFlights rs flyFrom flyTo dep ret).outboundFlights ∧
    (∀ f ∈ (generateMockFlights rs flyFrom flyTo dep ret).outboundFlights,
      ∃ i, i < 5 ∧ f = mockFlight rs flyFrom flyTo dep i) ∧
    (∀ i, (mockFlight rs flyFrom flyTo dep i).price
        = ((300 + pyRandInt (-100) 200 (rs.priceSeed i) : Int) : ℚ)) ∧
    (∀ i, (200 : ℚ) ≤ (mockFlight rs flyFrom flyTo dep i).price ∧
      (mockFlight rs flyFrom flyTo dep i).price ≤ 500 ∧
      ((mockFlight rs flyFrom flyTo dep i).stops = 0 ∨
        (mockFlight rs flyFrom flyTo dep i).stops = 1)) ∧
    (List.range 5).map (fun i => (mockFlight rs flyFrom flyTo dep i).departureTime)
      = [ "06:00".data, "09:00".data, "12:00".data, "15:00".data, "18:00".data ] := by
  have hperm := List.perm_insertionSort priceLE
    ((List.range 5).map (mockFlight rs flyFrom flyTo dep))
  have hprice : ∀ i, (mockFlight rs flyFrom flyTo dep i).price
      = ((300 + pyRandInt (-100) 200 (rs.priceSeed i) : Int) : ℚ) := fun i => rfl
  have hrand : ∀ i, pyRandInt (-100) 200 (rs.priceSeed i)
      = -100 + ((rs.priceSeed i % 301 : Nat) : Int) := fun i => rfl
  refine ⟨?_, ?_, ?_, hprice, ?_, ?_⟩
  · show (List.insertionSort priceLE
        ((List.range 5).map (mockFlight rs flyFrom flyTo dep))).length = 5
    rw [hperm.length_eq]
    simp
  · exact List.sorted_insertionSort priceLE _
  · intro f hf
    have : f ∈ (List.range 5).map (mockFlight rs flyFrom flyTo dep) :=
      (hperm.mem_iff).1 hf
    obtain ⟨i, hi, hfi⟩ := List.mem_map.1 this
    exact ⟨i, List.mem_range.1 hi, hfi.symm⟩
  · intro i
    have hmod : rs.priceSeed i % 301 < 301 := Nat.mod_lt _ (by norm_num)
    have hInt1 : (200 : Int) ≤ 300 + pyRandInt (-100) 200 (rs.priceSeed i) := by
      rw [hrand]; omega
    have hInt2 : 300 + pyRandInt (-100) 200 (rs.priceSeed i) ≤ (500 : Int) := by
      rw [hrand]; omega
    refine ⟨?_, ?_, ?_⟩
    · rw [hprice]; exact_mod_cast hInt1
    · rw [hprice]; exact_mod_cast hInt2
    · show pyChoice [ (0 : Int), 0, 1 ] 0 (rs.stopsSeed i) = 0 ∨
        pyChoice [ (0 : Int), 0, 1 ] 0 (rs.stopsSeed i) = 1
      have h3 : rs.stopsSeed i % 3 = 0 ∨ rs.stopsSeed i % 3 = 1 ∨
          rs.stopsSeed i % 3 = 2 := by omega
      rcases h3 with h | h | h <;> simp [pyChoice, h]
  · rfl

theorem generateMockFlights_shape_witness :
    (generateMockFlights ⟨fun _ => 7, fun _ => 1, fun _ => 2⟩ "NYC".data
        "PAR".data "2025-06-24".data none).outboundFlights.length = 5 ∧
    List.Sorted priceLE (generateMockFlights ⟨fun _ => 7, fun _ => 1, fun _ => 2⟩
        "NYC".data "PAR".data "2025-06-24".data none).outboundFlights ∧
    (∀ f ∈ (generateMockFlights ⟨fun _ => 7, fun _ => 1, fun _ => 2⟩ "NYC".data
        "PAR".data "2025-06-24".data none).outboundFlights,
      ∃ i, i < 5 ∧ f = mockFlight ⟨fun _ => 7, fun _ => 1, fun _ => 2⟩ "NYC".data
        "PAR".data "2025-06-24".data i) ∧
    (∀ i, (mockFlight ⟨fun _ => 7, fun _ => 1, fun _ => 2⟩ "NYC".data "PAR".data
        "2025-06-24".data i).price
      = ((300 + pyRandInt (-100) 200 ((7 : Nat)) : Int) : ℚ)) ∧
    (∀ i, (200 : ℚ) ≤ (mockFlight ⟨fun _ => 7, fun _ => 1, fun _ => 2⟩ "NYC".data
        "PAR".data "2025-06-24".data i).price ∧
      (mockFlight ⟨fun _ => 7, fun _ => 1, fun _ => 2⟩ "NYC".data "PAR".data
        "2025-06-24".data i).price ≤ 500 ∧
      ((mockFlight ⟨fun _ => 7, fun _ => 1, fun _ => 2⟩ "NYC".data "PAR".data
        "2025-06-24".data i).stops = 0 ∨
        (mockFlight ⟨fun _ => 7, fun _ => 1, fun _ => 2⟩ "NYC".data "PAR".data
        "2025-06-24".data i).stops = 1)) ∧
    (List.range 5).map (fun i => (mockFlight ⟨fun _ => 7, fun _ => 1, fun _ => 2⟩
        "NYC".data "PAR".data "2025-06-24".data i).departureTime)
      = [ "06:00".data, "09:00".data, "12:00".data, "15:00".data, "18:00".data ] :=
  generateMockFlights_shape ⟨fun _ => 7, fun _ => 1, fun _ => 2⟩ "NYC".data
    "PAR".data "2025-06-24".data none

/-- C6: whatever the environment (external outcomes, random seeds, place
pool) and for every valid request, a returned plan has exactly N itinerary
entries, min(N, 5) forecast days, at most 3 outbound flights (the
num_results = 3 cap of get_best_flights), and exactly 3 suggested windows
whose start dates are today + 2, today + 9 and today + 16 days (the
computed window and its +7 / +14 day alternatives). -/
theorem createTravelPlan_shape {P : Type} (env : AgentEnv P)
    (destination origin : List Char) (N M : Nat) (plan : TravelPlan P)
    (h1 : 1 ≤ N)
    (hok : createTravelPlan env destination N M origin = .ok plan) :
    plan.itinerary.length = N ∧
    plan.weatherForecast.length = min N 5 ∧
    plan.flights.outboundFlights.length ≤ 3 ∧
    plan.suggestedDates.length = 3 ∧
    plan.suggestedDates.map (fun s => s.startDate)
      = [ formatBdY (addDays env.today 2), formatBdY (addDays env.today 9),
          formatBdY (addDays env.today 16) ] := by
  unfold createTravelPlan at hok
  cases hfc : getForecast env.today env.useMockWeather env.weatherOutcome
      destination (min N 5) with
  | error e =>
    rw [hfc] at hok
    simp [Except.map] at hok
  | ok fc =>
    rw [hfc] at hok
    simp only [Except.map, Except.ok.injEq] at hok
    subst hok
    refine ⟨?_, ?_, ?_, ?_, ?_⟩
    · simp [createItinerarySuggestions]
    · simpa using getForecast_ok_length hfc
    · simp only [getBestFlights, List.length_take]
      exact Nat.min_le_left _ _
    · simp
    · simp only [List.map_cons, List.map_nil, addDays_addDays]

theorem createTravelPlan_shape_witness :
    1 ≤ 5 ∧
    createTravelPlan sampleEnv "Paris".data 5 6 "NYC".data = .ok samplePlan ∧
    (samplePlan.itinerary.length = 5 ∧
      samplePlan.weatherForecast.length = min 5 5 ∧
      samplePlan.flights.outboundFlights.length ≤ 3 ∧
      samplePlan.suggestedDates.length = 3 ∧
      samplePlan.suggestedDates.map (fun s => s.startDate)
        = [ formatBdY (addDays sampleEnv.today 2),
            formatBdY (addDays sampleEnv.today 9),
            formatBdY (addDays sampleEnv.today 16) ]) :=
  ⟨by norm_num, rfl,
    createTravelPlan_shape sampleEnv "Paris".data "NYC".data 5 6 samplePlan
      (by norm_num) rfl⟩

/-- The twenty-six ASCII letter pairs (lower, upper). -/
def casePairs : List (Char × Char) :=
  [ ('a', 'A'), ('b', 'B'), ('c', 'C'), ('d', 'D'), ('e', 'E'), ('f', 'F')
  , ('g', 'G'), ('h', 'H'), ('i', 'I'), ('j', 'J'), ('k', 'K'), ('l', 'L')
  , ('m', 'M'), ('n', 'N'), ('o', 'O'), ('p', 'P'), ('q', 'Q'), ('r', 'R')
  , ('s', 'S'), ('t', 'T'), ('u', 'U'), ('v', 'V'), ('w', 'W'), ('x', 'X')
  , ('y', 'Y'), ('z', 'Z') ]

theorem pyUpperChar_spec (c d : Char) (h : pyUpperChar c = d) :
    (c, d) ∈ casePairs ∨ d = c := by
  unfold pyUpperChar at h
  split at h <;> subst h
  all_goals first
    | (left; decide)
    | (right; rfl)

theorem pyLowerChar_spec (c d : Char) (h : pyLowerChar c = d) :
    (d, c) ∈ casePairs ∨ d = c := by
  unfold pyLowerChar at h
  split at h <;> subst h
  all_goals first
    | (left; decide)
    | (right; rfl)

theorem casePairs_up : ∀ p ∈ casePairs, pyUpperChar p.1 = p.2 := by decide

theorem casePairs_up_fix : ∀ p ∈ casePairs, pyUpperChar p.2 = p.2 := by decide

theorem pyUpperChar_pyLowerChar (c : Char) :
    pyUpperChar (pyLowerChar c) = pyUpperChar c := by
  rcases pyLowerChar_spec c (pyLowerChar c) rfl with h | h
  · rw [casePairs_up _ h]
    exact (casePairs_up_fix _ h).symm
  · rw [h]

theorem pyUpperChar_pyUpperChar (c : Char) :
    pyUpperChar (pyUpperChar c) = pyUpperChar c := by
  rcases pyUpperChar_spec c (pyUpperChar c) rfl with h | h
  · exact casePairs_up_fix _ h
  · rw [h]
    exact h

theorem pyUpper_idem (l : List Char) : pyUpper (pyUpper l) = pyUpper l := by
  simp only [pyUpper, List.map_map]
  exact List.map_congr_left fun c _ => pyUpperChar_pyUpperChar c

theorem pyUpper_pyLower (l : List Char) : pyUpper (pyLower l) = pyUpper l := by
  simp only [pyUpper, pyLower, List.map_map]
  exact List.map_congr_left fun c _ => pyUpperChar_pyLowerChar c

theorem pyStrip_sublist (l : List Char) : (pyStrip l).Sublist l := by
  unfold pyStrip
  have h1 : (l.dropWhile pyIsSpace).Sublist l := List.dropWhile_sublist _
  have h2 : ((l.dropWhile pyIsSpace).reverse.dropWhile pyIsSpace).Sublist
      (l.dropWhile pyIsSpace).reverse := List.dropWhile_sublist _
  have h3 := h2.reverse
  rw [List.reverse_reverse] at h3
  exact h3.trans h1

theorem pyStrip_length_le (l : List Char) : (pyStrip l).length ≤ l.length :=
  (pyStrip_sublist l).length_le

theorem pyStrip_eq_self_of_length (l : List Char)
    (h : (pyStrip l).length = l.length) : pyStrip l = l :=
  (pyStrip_sublist l).eq_of_length h

theorem cityCodes_fixed : ∀ p ∈ cityCodes, getCityCode p.2 = p.2 := by decide

theorem cityCodes_short_key :
    ∀ p ∈ cityCodes, p.1.length ≤ 3 → p = ("nyc".data, "NYC".data) := by decide

theorem cityCodes_lookup_self : ∀ p ∈ cityCodes,
    cityCodes.find? (fun q => decide (q.1 = p.1)) = some p := by decide

/-- C7: city-code lookup is idempotent on every input string; any input
whose lower-cased, stripped form is a key of the table maps to the table's
code (so every casing and surrounding whitespace of a known name works);
and the concrete example "  Paris " maps to "PAR". -/
theorem getCityCode_idem (s : List Char) (p : List Char × List Char)
    (hp : p ∈ cityCodes) (t : List Char)
    (ht : pyStrip (pyLower t) = p.1) :
    getCityCode (getCityCode s) = getCityCode s ∧
    getCityCode t = p.2 ∧
    getCityCode "  Paris ".data = "PAR".data := by
  refine ⟨?_, ?_, by decide⟩
  · cases hfind : cityCodes.find? (fun q => decide (q.1 = pyStrip (pyLower s))) with
    | some q =>
      have hq : q ∈ cityCodes := List.mem_of_find?_eq_some hfind
      have hs : getCityCode s = q.2 := by simp [getCityCode, hfind]
      rw [hs]
      exact cityCodes_fixed q hq
    | none =>
      have hs : getCityCode s = pyUpper (s.take 3) := by simp [getCityCode, hfind]
      rw [hs]
      have hylen : (pyUpper (s.take 3)).length ≤ 3 := by
        simp only [pyUpper, List.length_map, List.length_take]
        exact Nat.min_le_left _ _
      cases hfind2 : cityCodes.find?
          (fun q => decide (q.1 = pyStrip (pyLower (pyUpper (s.take 3))))) with
      | none =>
        have h2 : getCityCode (pyUpper (s.take 3))
            = pyUpper ((pyUpper (s.take 3)).take 3) := by
          simp [getCityCode, hfind2]
        rw [h2, List.take_of_length_le hylen, pyUpper_idem]
      | some q =>
        have hq : q ∈ cityCodes := List.mem_of_find?_eq_some hfind2
        have hkey : q.1 = pyStrip (pyLower (pyUpper (s.take 3))) := by
          have := List.find?_some hfind2
          simpa using this
        have hlow : (pyLower (pyUpper (s.take 3))).length ≤ 3 := by
          simpa [pyLower] using hylen
        have hk3 : q.1.length ≤ 3 := by
          rw [hkey]
          exact le_trans (pyStrip_length_le _) hlow
        have hqn : q = ("nyc".data, "NYC".data) := cityCodes_short_key q hq hk3
        have e1 : (pyStrip (pyLower (pyUpper (s.take 3)))).length = 3 := by
          rw [← hkey, hqn]
          rfl
        have e2 : (pyStrip (pyLower (pyUpper (s.take 3)))).length
            ≤ (pyLower (pyUpper (s.take 3))).length := pyStrip_length_le _
        have hstrip : pyStrip (pyLower (pyUpper (s.take 3)))
            = pyLower (pyUpper (s.take 3)) :=
          pyStrip_eq_self_of_length _ (by omega)
        have hLy : pyLower (pyUpper (s.take 3)) = "nyc".data := by
          rw [← hstrip, ← hkey, hqn]
        have hyNYC : pyUpper (s.take 3) = "NYC".data := by
          have h1 : pyUpper (pyLower (pyUpper (s.take 3))) = "NYC".data := by
            rw [hLy]; decide
          rw [pyUpper_pyLower, pyUpper_idem] at h1
          exact h1
        have h2 : getCityCode (pyUpper (s.take 3)) = q.2 := by
          simp [getCityCode, hfind2]
        rw [h2, hqn, hyNYC]
  · have hself := cityCodes_lookup_self p hp
    simp [getCityCode, ht, hself]

theorem getCityCode_idem_witness :
    (("paris".data, "PAR".data) ∈ cityCodes) ∧
    (pyStrip (pyLower "  Paris ".data) = ("paris".data, "PAR".data).1) ∧
    (getCityCode (getCityCode "Zurich".data) = getCityCode "Zurich".data ∧
      getCityCode "  Paris ".data = ("paris".data, "PAR".data).2 ∧
      getCityCode "  Paris ".data = "PAR".data) :=
  ⟨by decide, by decide,
    getCityCode_idem "Zurich".data ("paris".data, "PAR".data) (by decide)
      "  Paris ".data (by decide)⟩

/-- C10, counterexample: the claim's middle part says any text containing
"partly cloudy" yields "cloudy"; the text "sunny partly cloudy" contains
"partly cloudy" yet yields "sunny", because "sunny" is checked first. -/
theorem extractDescription_partly_shadowed_by_sunny :
    listHasSub (pyLower "sunny partly cloudy".data) "partly cloudy".data = true ∧
    extractDescription "sunny partly cloudy".data = "sunny".data ∧
    extractDescription "sunny partly cloudy".data ≠ "cloudy".data := by decide

/-- C10, amended: a text containing "partly cloudy" but not "sunny" yields
"cloudy" (the "cloudy" check precedes "partly cloudy" and matches inside
it); consequently _extract_description never returns "partly cloudy", and
its value always lies in the seven-element set of the remaining condition
keywords plus the default "moderate weather". -/
theorem extractDescription_never_partly_cloudy (t : List Char)
    (h : listHasSub (pyLower t) "partly cloudy".data = true)
    (hs : listHasSub (pyLower t) "sunny".data = false) :
    extractDescription t = "cloudy".data ∧
    (∀ u : List Char,
      extractDescription u ≠ "partly cloudy".data ∧
      extractDescription u ∈ [ "sunny".data, "cloudy".data, "rainy".data,
        "clear".data, "overcast".data, "stormy".data,
        "moderate weather".data ]) := by
  constructor
  · have hc : listHasSub (pyLower t) "cloudy".data = true :=
      hasSub_cloudy_of_hasSub_partly h
    simp [extractDescription, weatherConditions, List.find?, hs, hc]
  · intro u
    by_cases h1 : listHasSub (pyLower u) "sunny".data = true
    · have hd : extractDescription u = "sunny".data := by
        simp [extractDescription, weatherConditions, List.find?, h1]
      rw [hd]
      exact ⟨by decide, by decide⟩
    rw [Bool.not_eq_true] at h1
    by_cases h2 : listHasSub (pyLower u) "cloudy".data = true
    · have hd : extractDescription u = "cloudy".data := by
        simp [extractDescription, weatherConditions, List.find?, h1, h2]
      rw [hd]
      exact ⟨by decide, by decide⟩
    rw [Bool.not_eq_true] at h2
    by_cases h3 : listHasSub (pyLower u) "rainy".data = true
    · have hd : extractDescription u = "rainy".data := by
        simp [extractDescription, weatherConditions, List.find?, h1, h2, h3]
      rw [hd]
      exact ⟨by decide, by decide⟩
    rw [Bool.not_eq_true] at h3
    by_cases h4 : listHasSub (pyLower u) "clear".data = true
    · have hd : extractDescription u = "clear".data := by
        simp [extractDescription, weatherConditions, List.find?, h1, h2, h3, h4]
      rw [hd]
      exact ⟨by decide, by decide⟩
    rw [Bool.not_eq_true] at h4
    by_cases h5 : listHasSub (pyLower u) "partly cloudy".data = true
    · exact absurd (hasSub_cloudy_of_hasSub_partly h5) (by simp [h2])
    rw [Bool.not_eq_true] at h5
    by_cases h6 : listHasSub (pyLower u) "overcast".data = true
    · have hd : extractDescription u = "overcast".data := by
        simp [extractDescription, weatherConditions, List.find?, h1, h2, h3, h4,
          h5, h6]
      rw [hd]
      exact ⟨by decide, by decide⟩
    rw [Bool.not_eq_true] at h6
    by_cases h7 : listHasSub (pyLower u) "stormy".data = true
    · have hd : extractDescription u = "stormy".data := by
        simp [extractDescription, weatherConditions, List.find?, h1, h2, h3, h4,
          h5, h6, h7]
      rw [hd]
      exact ⟨by decide, by decide⟩
    rw [Bool.not_eq_true] at h7
    have hd : extractDescription u = "moderate weather".data := by
      simp [extractDescription, weatherConditions, List.find?, h1, h2, h3, h4,
        h5, h6, h7]
    rw [hd]
    exact ⟨by decide, by decide⟩

theorem extractDescription_never_partly_cloudy_witness :
    (listHasSub (pyLower "partly cloudy and mild".data) "partly cloudy".data
      = true) ∧
    (listHasSub (pyLower "partly cloudy and mild".data) "sunny".data = false) ∧
    (extractDescription "partly cloudy and mild".data = "cloudy".data ∧
      (∀ u : List Char,
        extractDescription u ≠ "partly cloudy".data ∧
        extractDescription u ∈ [ "sunny".data, "cloudy".data, "rainy".data,
          "clear".data, "overcast".data, "stormy".data,
          "moderate weather".data ])) :=
  ⟨by decide, by decide,
    extractDescription_never_partly_cloudy "partly cloudy and mild".data
      (by decide) (by decide)⟩

end TravelAgent
